import Mathlib

/-!
Verification of `src/routes/insight.ts` (Cognitiva-API).

The file shallowly embeds the insight route module: the JWT authentication
middleware, the GET list handler, the `retryGenerateInsight` retry/backoff
wrapper around the generation service, and the POST generate handler.
External collaborators (token verification, the Prisma store, the
generation service) are parameters of an `Env` record; their outcomes are
data, and each handler is a pure function from the request and the
environment to an outcome that records the HTTP status, the side effects on
storage (insights created, `$disconnect` called) and the calls made to the
generation service.
-/

namespace Cognitiva

/-- Outcome of one call to the external generation service
(`model.generateContent`): either generated text, or a thrown error whose
extracted status is `(error as any).status || (error as any).cause?.status`
(absent when neither field is set). -/
inductive GenOutcome where
  | success (text : String)
  | failure (status : Option Nat)
  deriving Repr, DecidableEq

/-- How one run of `retryGenerateInsight` ends: the successful text,
the underlying error rethrown on a non-503 status (`throw error`), or the
final `"Gemini API falhou após múltiplas tentativas (503 Sobrecarga
persistente)."` error after the loop exhausts its attempts. -/
inductive RetryResult where
  | ok (text : String)
  | failedNonTransient (status : Option Nat)
  | overloaded
  deriving Repr, DecidableEq

/-- Trace of one run of `retryGenerateInsight`: its result, how many times
`model.generateContent` was invoked, and the backoff delays awaited
(in milliseconds, in order). -/
structure RetryTrace where
  result : RetryResult
  calls : Nat
  delays : List Nat
  deriving Repr, DecidableEq

/-- `const delayTime = Math.pow(2, attempt) * 1000; // 1s, 2s, 4s` -/
def delayTime (attempt : Nat) : Nat := 2 ^ attempt * 1000

/-- The base backoff delay in milliseconds: one time unit of the backoff
schedule (`delayTime attempt = baseDelay * 2 ^ attempt`). -/
def baseDelay : Nat := 1000

/-- The `for (let attempt = 0; attempt < maxRetries; attempt++)` loop of
`retryGenerateInsight`, entered at loop counter `attempt` with
`remaining = maxRetries - attempt` iterations left (the recursion is on the
remaining count so the loop is structurally recursive).  The service is
modelled as `svc : Nat → GenOutcome`, giving the outcome of the call made
at loop counter `i`.  On success the text is returned at once; on a thrown
error whose status is not 503 the error is rethrown at once; on a 503 the
delay `delayTime attempt` is awaited and the loop continues; when no
iterations remain the loop falls through to the final
`"Sobrecarga persistente"` throw. -/
def retryLoop (svc : Nat → GenOutcome) (attempt : Nat) : Nat → RetryTrace
  | 0 => ⟨.overloaded, 0, []⟩
  | remaining + 1 =>
    match svc attempt with
    | .success t => ⟨.ok t, 1, []⟩
    | .failure status =>
      if status = some 503 then
        let rest := retryLoop svc (attempt + 1) remaining
        ⟨rest.result, rest.calls + 1, delayTime attempt :: rest.delays⟩
      else
        ⟨.failedNonTransient status, 1, []⟩

/-- `async function retryGenerateInsight(fullPrompt, maxRetries = 3)`:
the loop starting at `attempt = 0` with all `maxRetries` iterations left.
(The `GEMINI_API_KEY` guard at the top of the function is a
process-configuration check, assumed satisfied; the prompt text does not
affect the control flow modelled here.) -/
def retryGenerateInsight (svc : Nat → GenOutcome) (maxRetries : Nat := 3) : RetryTrace :=
  retryLoop svc 0 maxRetries

/-- The payload produced by `jwt.verify(token, JWT_SECRET!)`, cast in the
code as `{ id: string, nome: string, acesso: string }`.  The handler later
reads `user.escolaId`, a field the cast does not list, so it may be absent
from the verified payload; it is therefore an `Option`. -/
structure TokenPayload where
  id : String
  nome : String
  acesso : String
  escolaId : Option String
  deriving Repr, DecidableEq

/-- JS `s.split(c)` for a one-character separator: split the character
list at every occurrence of `c`, keeping empty parts (so `""` splits to
`[""]`, as in JS). -/
def splitOnChar (c : Char) : List Char → List (List Char)
  | [] => [[]]
  | x :: xs =>
    match splitOnChar c xs with
    | [] => if x = c then [[], []] else [[x]]
    | r :: rs => if x = c then [] :: r :: rs else (x :: r) :: rs

/-- `const token = authHeader && authHeader.split(' ')[1]`: the second
space-separated part of the header, when the header is present; an absent
part, or the empty string (falsy in `if (!token)`), yields no token. -/
def extractToken (authHeader : Option String) : Option String :=
  match authHeader with
  | none => none
  | some h =>
    match (splitOnChar ' ' h.toList).get? 1 with
    | none => none
    | some t => if t = [] then none else some (String.mk t)

/-- Result of the `authenticateToken` middleware: 401 when no token was
extracted, 403 when `jwt.verify` throws, otherwise the verified payload is
attached to the request and the handler runs. -/
inductive AuthResult where
  | missingToken
  | invalidToken
  | ok (user : TokenPayload)
  deriving Repr, DecidableEq

/-- The `authenticateToken` middleware.  Verification
(`jwt.verify(token, JWT_SECRET!)`) is a parameter: `verify tok = some user`
when the token verifies to payload `user`, `none` when verification
throws. -/
def authenticateToken (verify : String → Option TokenPayload)
    (authHeader : Option String) : AuthResult :=
  match extractToken authHeader with
  | none => .missingToken
  | some tok =>
    match verify tok with
    | none => .invalidToken
    | some user => .ok user

/-- `aluno.turma` (included relation); only its `Nome` is read. -/
structure Turma where
  Nome : String
  deriving Repr, DecidableEq

/-- One row of `aluno.observacoes`; the handler reads `obs.texto`. -/
structure Observacao where
  texto : String
  deriving Repr, DecidableEq

/-- The record returned by `prisma.aluno.findUnique` with its included
relations.  Relations whose internal structure the handler copies verbatim
into the payload (`condicao`, `notasBimestrais` with `materia`,
`avaliacoes` with `atividade`/`materia`/`professor`) are kept opaque as
serialized rows: the handler never inspects them. -/
structure Aluno where
  id : String
  Nome : String
  Matricula : String
  Idade : Nat
  escolaId : String
  turma : Turma
  condicao : List String
  notasBimestrais : List String
  avaliacoes : List String
  observacoes : List Observacao
  deriving Repr, DecidableEq

/-- The `jsonInput` object assembled by the POST handler. -/
structure JsonInput where
  alunoNome : String
  alunoMatricula : String
  alunoIdade : Nat
  alunoTurma : String
  alunoCondicao : List String
  notas : List String
  avaliacoes : List String
  observacoes : List String
  deriving Repr, DecidableEq

/-- `const jsonInput = { aluno: { Nome, Matricula, Idade, turma:
aluno.turma.Nome, condicao }, notas, avaliacoes, observacoes:
aluno.observacoes.map(obs => obs.texto) }`. -/
def buildJsonInput (aluno : Aluno) : JsonInput :=
  { alunoNome := aluno.Nome
    alunoMatricula := aluno.Matricula
    alunoIdade := aluno.Idade
    alunoTurma := aluno.turma.Nome
    alunoCondicao := aluno.condicao
    notas := aluno.notasBimestrais
    avaliacoes := aluno.avaliacoes
    observacoes := aluno.observacoes.map (fun obs => obs.texto) }

/-- The data of a `prisma.insight.create` call:
`{ alunoId: aluno.id, jsonInput, textoInsight: responseText,
escolaId: aluno.escolaId }`. -/
structure Insight where
  alunoId : String
  jsonInput : JsonInput
  textoInsight : String
  escolaId : String
  deriving Repr, DecidableEq

/-- External collaborators of the route module: token verification, the
Prisma reads and writes, and the generation service. -/
structure Env where
  verify : String → Option TokenPayload
  findAluno : String → Option Aluno
  listInsights : String → Option (List Insight)
  createOk : Bool
  svc : Nat → GenOutcome

/-- `const { alunoId } = req.params; if (!alunoId)`: the param is falsy
when absent or the empty string. -/
def missingParam : Option String → Bool
  | none => true
  | some s => s = ""

/-- Observable outcome of one GET request: the HTTP status, the body rows
on a 200, and whether `prisma.$disconnect()` ran. -/
structure GetOutcome where
  status : Nat
  body : List Insight
  disconnected : Bool
  deriving Repr, DecidableEq

/-- The `router.get("/aluno/:alunoId", authenticateToken, ...)` handler:
middleware, then the `!alunoId` → 400 check (before the `try` block, so it
does not reach the `finally`), then `prisma.insight.findMany` inside
`try { ... } catch { 500 } finally { await prisma.$disconnect() }`.
`env.listInsights aid = none` models the storage read throwing. -/
def handleGet (env : Env) (authHeader : Option String)
    (alunoId : Option String) : GetOutcome :=
  match authenticateToken env.verify authHeader with
  | .missingToken => ⟨401, [], false⟩
  | .invalidToken => ⟨403, [], false⟩
  | .ok _ =>
    if missingParam alunoId then
      ⟨400, [], false⟩
    else
      match env.listInsights (alunoId.getD "") with
      | some rows => ⟨200, rows, true⟩
      | none => ⟨500, [], true⟩

/-- Observable outcome of one POST request: the HTTP status, the insight
in the response body on a 200, the number of generation-service calls, the
backoff delays awaited, the insights created in storage, and whether
`prisma.$disconnect()` ran. -/
structure PostOutcome where
  status : Nat
  insight : Option Insight
  genCalls : Nat
  genDelays : List Nat
  created : List Insight
  disconnected : Bool
  deriving Repr, DecidableEq

/-- The tail of the POST handler once authorization has passed:
`jsonInput` assembly, `const responseText = await
retryGenerateInsight(fullPrompt)` with its default `maxRetries = 3`, and
`prisma.insight.create({ data: { alunoId: aluno.id, jsonInput,
textoInsight: responseText, escolaId: aluno.escolaId } })`.  A thrown
retry failure is caught by the handler's `catch`, which maps an error
whose message contains `"Sobrecarga persistente"` (the exhausted-retries
error) to 503 and any other error — including a `prisma.insight.create`
failure, modelled by `env.createOk = false` — to 500; the `finally` runs
`prisma.$disconnect()` on every one of these paths. -/
def generateForAluno (env : Env) (aluno : Aluno) : PostOutcome :=
  let jsonInput := buildJsonInput aluno
  let trace := retryGenerateInsight env.svc
  match trace.result with
  | .ok text =>
    if env.createOk then
      let novoInsight : Insight :=
        ⟨aluno.id, jsonInput, text, aluno.escolaId⟩
      ⟨200, some novoInsight, trace.calls, trace.delays, [novoInsight], true⟩
    else
      ⟨500, none, trace.calls, trace.delays, [], true⟩
  | .overloaded =>
    ⟨503, none, trace.calls, trace.delays, [], true⟩
  | .failedNonTransient _ =>
    ⟨500, none, trace.calls, trace.delays, [], true⟩

/-- The `router.post("/aluno/:alunoId", authenticateToken, ...)` handler:
middleware, then the `!alunoId` → 400 check (before the `try`, so no
`finally`), then inside `try`: `prisma.aluno.findUnique` (404 when
absent; the `finally` has been entered, so `$disconnect` runs), the
authorization check `if (user.escolaId !== aluno.escolaId && user.acesso
!== 'Administrador')` → 403, then `generateForAluno`. -/
def handlePost (env : Env) (authHeader : Option String)
    (alunoId : Option String) : PostOutcome :=
  match authenticateToken env.verify authHeader with
  | .missingToken => ⟨401, none, 0, [], [], false⟩
  | .invalidToken => ⟨403, none, 0, [], [], false⟩
  | .ok user =>
    if missingParam alunoId then
      ⟨400, none, 0, [], [], false⟩
    else
      match env.findAluno (alunoId.getD "") with
      | none => ⟨404, none, 0, [], [], true⟩
      | some aluno =>
        if user.escolaId ≠ some aluno.escolaId ∧ user.acesso ≠ "Administrador" then
          ⟨403, none, 0, [], [], true⟩
        else
          generateForAluno env aluno

/-! Section: Behaviour of the retry loop -/

theorem retryLoop_success (svc : Nat → GenOutcome) (t : String) (j : Nat) :
    ∀ a remaining, j < remaining →
      (∀ i, i < j → svc (a + i) = .failure (some 503)) →
      svc (a + j) = .success t →
      retryLoop svc a remaining =
        ⟨.ok t, j + 1, (List.range' a j).map delayTime⟩ := by
  induction j with
  | zero =>
    intro a remaining hrem _ hsucc
    obtain ⟨r, rfl⟩ := Nat.exists_eq_add_of_lt hrem
    simp only [Nat.add_zero] at hsucc
    simp [retryLoop, hsucc]
  | succ j ih =>
    intro a remaining hrem hfail hsucc
    obtain ⟨r, rfl⟩ := Nat.exists_eq_add_of_lt hrem
    have h0 : svc a = .failure (some 503) := by
      simpa using hfail 0 (Nat.succ_pos j)
    have hstep := ih (a + 1) (j + 1 + r) (by omega)
      (fun i hi => by
        have h := hfail (i + 1) (by omega)
        have he : a + (i + 1) = a + 1 + i := by omega
        rwa [he] at h)
      (by
        have he : a + (j + 1) = a + 1 + j := by omega
        rwa [he] at hsucc)
    show retryLoop svc a (j + 1 + r + 1) = _
    simp only [retryLoop, h0, reduceIte, hstep]
    rw [List.range'_succ a j 1]
    simp

theorem retryLoop_allFail (svc : Nat → GenOutcome)
    (hfail : ∀ i, svc i = .failure (some 503)) :
    ∀ remaining a, retryLoop svc a remaining =
      ⟨.overloaded, remaining, (List.range' a remaining).map delayTime⟩ := by
  intro remaining
  induction remaining with
  | zero => intro a; simp [retryLoop]
  | succ r ih =>
    intro a
    simp only [retryLoop, hfail a, reduceIte, ih (a + 1),
      List.range'_succ a r 1]
    simp

theorem retryLoop_nonTransient (svc : Nat → GenOutcome) (a remaining : Nat)
    (st : Option Nat) (hrem : 0 < remaining)
    (hst : svc a = .failure st) (hne : st ≠ some 503) :
    retryLoop svc a remaining = ⟨.failedNonTransient st, 1, []⟩ := by
  obtain ⟨r, rfl⟩ := Nat.exists_eq_add_of_lt hrem
  simp [retryLoop, hst, hne]

theorem retryLoop_calls_pos (svc : Nat → GenOutcome) (a remaining : Nat)
    (hrem : 0 < remaining) : 1 ≤ (retryLoop svc a remaining).calls := by
  obtain ⟨r, rfl⟩ := Nat.exists_eq_add_of_lt hrem
  simp only [retryLoop]
  cases svc a with
  | success t => simp
  | failure st =>
    by_cases h : st = some 503 <;> simp [h]

theorem delayTime_eq_baseDelay_mul (i : Nat) :
    delayTime i = baseDelay * 2 ^ i := by
  simp [delayTime, baseDelay, Nat.mul_comm]

/-! Section: Reductions of the POST handler -/

theorem handlePost_forbidden (env : Env) (authHeader alunoId : Option String)
    (user : TokenPayload) (aluno : Aluno)
    (hauth : authenticateToken env.verify authHeader = .ok user)
    (hid : missingParam alunoId = false)
    (hfind : env.findAluno (alunoId.getD "") = some aluno)
    (horg : user.escolaId ≠ some aluno.escolaId)
    (hacc : user.acesso ≠ "Administrador") :
    handlePost env authHeader alunoId = ⟨403, none, 0, [], [], true⟩ := by
  simp [handlePost, hauth, hid, hfind, if_pos (And.intro horg hacc)]

theorem handlePost_authorized (env : Env) (authHeader alunoId : Option String)
    (user : TokenPayload) (aluno : Aluno)
    (hauth : authenticateToken env.verify authHeader = .ok user)
    (hid : missingParam alunoId = false)
    (hfind : env.findAluno (alunoId.getD "") = some aluno)
    (hallow : user.escolaId = some aluno.escolaId ∨ user.acesso = "Administrador") :
    handlePost env authHeader alunoId = generateForAluno env aluno := by
  have hneg : ¬(user.escolaId ≠ some aluno.escolaId ∧ user.acesso ≠ "Administrador") := by
    tauto
  simp [handlePost, hauth, hid, hfind, if_neg hneg]

/-! Section: Concrete fixtures used by the witnesses -/

/-- A generation service that fails with status 503 on its first `k` calls
and then succeeds with text `t`. -/
def svcThenOk (k : Nat) (t : String) : Nat → GenOutcome :=
  fun i => if i < k then .failure (some 503) else .success t

/-- A generation service that fails with status 503 on every call. -/
def svc503 : Nat → GenOutcome := fun _ => .failure (some 503)

/-- A generation service that fails with status 500 on every call. -/
def svc500 : Nat → GenOutcome := fun _ => .failure (some 500)

/-- A non-administrator caller of school `"e1"`. -/
def profUser : TokenPayload := ⟨"u1", "Ana", "Professor", some "e1"⟩

/-- An administrator caller of school `"e2"`. -/
def adminUser : TokenPayload := ⟨"u2", "Bia", "Administrador", some "e2"⟩

/-- A non-administrator caller whose verified payload has no `escolaId`. -/
def noOrgUser : TokenPayload := ⟨"u3", "Carla", "Professor", none⟩

/-- A student of school `"e1"`. -/
def aluno1 : Aluno :=
  ⟨"a1", "João", "M123", 14, "e1", ⟨"3A"⟩, ["dislexia"], ["n1"], ["av1"],
    [⟨"obs1"⟩]⟩

/-- An environment where token `"tok1"` verifies to `user`, student `"a1"`
exists, listing returns no rows, the insight write succeeds, and the
generation service is `svc`. -/
def mkEnv (user : TokenPayload) (svc : Nat → GenOutcome) : Env :=
  { verify := fun tok => if tok = "tok1" then some user else none
    findAluno := fun i => if i = "a1" then some aluno1 else none
    listInsights := fun _ => some []
    createOk := true
    svc := svc }

/-! Section: The claims -/

/-- Claim C1. For every Generate request whose generation service fails with
the transient-overload signal (status 503) exactly `k` times and then
succeeds, with `k < maxAttempts` (default 3), the retry wrapper returns
the successful text, invokes the generation service exactly `k + 1` times,
and waits `baseDelay * 2 ^ attempt` time units (1, 2, 4, … for attempts
0, 1, 2, …) between consecutive calls. -/
theorem retry_transient_then_success (svc : Nat → GenOutcome)
    (k maxAttempts : Nat) (t : String) (hk : k < maxAttempts)
    (hfail : ∀ i, i < k → svc i = .failure (some 503))
    (hsucc : svc k = .success t) :
    retryGenerateInsight svc maxAttempts =
      ⟨.ok t, k + 1, (List.range k).map (fun i => baseDelay * 2 ^ i)⟩ := by
  have h := retryLoop_success svc t k 0 maxAttempts hk
    (fun i hi => by simpa using hfail i hi) (by simpa using hsucc)
  rw [retryGenerateInsight, h, ← List.range_eq_range']
  congr 1
  exact List.map_congr_left fun i _ => delayTime_eq_baseDelay_mul i

/-- Witness for C1 at `k = 2`, `maxAttempts = 3`. -/
theorem retry_transient_then_success_witness :
    retryGenerateInsight (svcThenOk 2 "texto") 3 =
      ⟨.ok "texto", 3, [1000, 2000]⟩ := by
  have h := retry_transient_then_success (svcThenOk 2 "texto") 2 3 "texto"
    (by decide) (fun i hi => by simp [svcThenOk, hi]) (by simp [svcThenOk])
  rw [h]
  decide

/-- Claim C2. For every Generate request whose generation service fails with
the transient-overload signal on every attempt, the retry wrapper invokes
the generation service exactly `maxAttempts` times (default 3), then fails
with `GenerationOverloaded` (the `"Sobrecarga persistente"` error, a kind
distinct from `GenerationFailed`), and the pipeline maps this outcome to
HTTP status 503. -/
theorem retry_exhausted_maps_503 (env : Env)
    (authHeader alunoId : Option String) (user : TokenPayload)
    (aluno : Aluno)
    (hauth : authenticateToken env.verify authHeader = .ok user)
    (hid : missingParam alunoId = false)
    (hfind : env.findAluno (alunoId.getD "") = some aluno)
    (hallow : user.escolaId = some aluno.escolaId ∨
      user.acesso = "Administrador")
    (hfail : ∀ i, env.svc i = .failure (some 503)) :
    (∀ maxAttempts, (retryGenerateInsight env.svc maxAttempts).result =
        .overloaded ∧
      (retryGenerateInsight env.svc maxAttempts).calls = maxAttempts) ∧
    (∀ st, RetryResult.overloaded ≠ RetryResult.failedNonTransient st) ∧
    (handlePost env authHeader alunoId).status = 503 ∧
    (handlePost env authHeader alunoId).genCalls = 3 ∧
    (handlePost env authHeader alunoId).created = [] := by
  have hall := retryLoop_allFail env.svc hfail
  refine ⟨fun m => by rw [retryGenerateInsight, hall m 0]; exact ⟨rfl, rfl⟩,
    by simp, ?_⟩
  rw [handlePost_authorized env authHeader alunoId user aluno hauth hid
    hfind hallow]
  simp [generateForAluno, retryGenerateInsight, hall 3 0]

/-- Witness for C2: caller and student share school `"e1"`. -/
theorem retry_exhausted_maps_503_witness :
    (retryGenerateInsight svc503 3).calls = 3 ∧
    (handlePost (mkEnv profUser svc503) (some "Bearer tok1")
      (some "a1")).status = 503 := by
  have h := retry_exhausted_maps_503 (mkEnv profUser svc503)
    (some "Bearer tok1") (some "a1") profUser aluno1
    (by decide) (by decide) (by decide) (by decide) (fun i => rfl)
  exact ⟨(h.1 3).2, h.2.2.1⟩

/-- Claim C3. For every Generate request whose generation service fails
without the transient-overload signal, the retry wrapper invokes the
generation service exactly once, performs no retry, and fails with
`GenerationFailed` (the rethrown error), which the pipeline maps to HTTP
status 500. -/
theorem nontransient_single_call_maps_500 (env : Env)
    (authHeader alunoId : Option String) (user : TokenPayload)
    (aluno : Aluno) (st : Option Nat)
    (hauth : authenticateToken env.verify authHeader = .ok user)
    (hid : missingParam alunoId = false)
    (hfind : env.findAluno (alunoId.getD "") = some aluno)
    (hallow : user.escolaId = some aluno.escolaId ∨
      user.acesso = "Administrador")
    (hst : env.svc 0 = .failure st) (hne : st ≠ some 503) :
    retryGenerateInsight env.svc = ⟨.failedNonTransient st, 1, []⟩ ∧
    (handlePost env authHeader alunoId).status = 500 ∧
    (handlePost env authHeader alunoId).genCalls = 1 ∧
    (handlePost env authHeader alunoId).created = [] := by
  have h1 : retryGenerateInsight env.svc = ⟨.failedNonTransient st, 1, []⟩ :=
    retryLoop_nonTransient env.svc 0 3 st (by decide) hst hne
  refine ⟨h1, ?_⟩
  rw [handlePost_authorized env authHeader alunoId user aluno hauth hid
    hfind hallow]
  simp [generateForAluno, h1]

/-- Witness for C3 with a service that always fails with status 500. -/
theorem nontransient_single_call_maps_500_witness :
    retryGenerateInsight svc500 = ⟨.failedNonTransient (some 500), 1, []⟩ ∧
    (handlePost (mkEnv profUser svc500) (some "Bearer tok1")
      (some "a1")).status = 500 := by
  have h := nontransient_single_call_maps_500 (mkEnv profUser svc500)
    (some "Bearer tok1") (some "a1") profUser aluno1 (some 500)
    (by decide) (by decide) (by decide) (by decide) rfl (by decide)
  exact ⟨h.1, h.2.1⟩

/-- Claim C9. In every run of the retry wrapper where an attempt fails with
the transient-overload signal, the backoff delay `baseDelay * 2 ^ attempt`
is awaited after that failed attempt even when it is the final attempt:
when all `maxAttempts` attempts fail transiently the wrapper awaits one
delay per call — the last being `baseDelay * 2 ^ (maxAttempts - 1)` after
the last service call — before failing with the overloaded error. -/
theorem delay_awaited_after_final_attempt (svc : Nat → GenOutcome)
    (k : Nat) (hfail : ∀ i, svc i = .failure (some 503)) :
    (retryGenerateInsight svc (k + 1)).result = .overloaded ∧
    (retryGenerateInsight svc (k + 1)).calls = k + 1 ∧
    (retryGenerateInsight svc (k + 1)).delays =
      ((List.range k).map (fun i => baseDelay * 2 ^ i)) ++
        [baseDelay * 2 ^ k] := by
  have hall := retryLoop_allFail svc hfail (k + 1) 0
  rw [retryGenerateInsight, hall]
  refine ⟨rfl, rfl, ?_⟩
  show (List.range' 0 (k + 1)).map delayTime = _
  rw [← List.range_eq_range', List.range_succ, List.map_append]
  simp [List.map_congr_left fun i _ => delayTime_eq_baseDelay_mul i,
    delayTime_eq_baseDelay_mul]

/-- Witness for C9 at `maxAttempts = 3`: three delays for three calls,
the last one 4 seconds, awaited after the third call. -/
theorem delay_awaited_after_final_attempt_witness :
    (retryGenerateInsight svc503 3).delays = [1000, 2000, 4000] ∧
    (retryGenerateInsight svc503 3).calls = 3 := by
  have h := delay_awaited_after_final_attempt svc503 2 (fun i => rfl)
  exact ⟨by rw [h.2.2]; decide, h.2.1⟩

/-- A non-administrator caller of school `"e2"` (≠ `aluno1`'s `"e1"`). -/
def profUser2 : TokenPayload := ⟨"u4", "Davi", "Professor", some "e2"⟩

/-- A generation service that always succeeds with text `"texto"`. -/
def svcOk : Nat → GenOutcome := fun _ => .success "texto"

theorem generateForAluno_status_ne_403 (env : Env) (aluno : Aluno) :
    (generateForAluno env aluno).status ≠ 403 := by
  simp only [generateForAluno]
  cases (retryGenerateInsight env.svc).result with
  | ok t => cases env.createOk <;> simp
  | failedNonTransient st => simp
  | overloaded => simp

theorem generateForAluno_disconnected (env : Env) (aluno : Aluno) :
    (generateForAluno env aluno).disconnected = true := by
  simp only [generateForAluno]
  cases (retryGenerateInsight env.svc).result with
  | ok t => cases env.createOk <;> simp
  | failedNonTransient st => simp
  | overloaded => simp

theorem generateForAluno_genCalls (env : Env) (aluno : Aluno) :
    (generateForAluno env aluno).genCalls =
      (retryGenerateInsight env.svc).calls := by
  simp only [generateForAluno]
  cases (retryGenerateInsight env.svc).result with
  | ok t => cases env.createOk <;> simp
  | failedNonTransient st => simp
  | overloaded => simp

/-- Claim C4. For every Generate request with a valid token and an existing
target where the caller's organization id differs from the target's
organization id and the caller's access level is not the administrator
level (`'Administrador'` in the code, "Administrator" in the spec), the
operation returns Forbidden (403), no InsightRecord is created, and the
generation service is never invoked. -/
theorem cross_org_non_admin_forbidden (env : Env)
    (authHeader alunoId : Option String) (user : TokenPayload)
    (aluno : Aluno)
    (hauth : authenticateToken env.verify authHeader = .ok user)
    (hid : missingParam alunoId = false)
    (hfind : env.findAluno (alunoId.getD "") = some aluno)
    (horg : user.escolaId ≠ some aluno.escolaId)
    (hacc : user.acesso ≠ "Administrador") :
    (handlePost env authHeader alunoId).status = 403 ∧
    (handlePost env authHeader alunoId).created = [] ∧
    (handlePost env authHeader alunoId).genCalls = 0 := by
  rw [handlePost_forbidden env authHeader alunoId user aluno hauth hid
    hfind horg hacc]
  exact ⟨rfl, rfl, rfl⟩

/-- Witness for C4: caller of school `"e2"`, student of school `"e1"`. -/
theorem cross_org_non_admin_forbidden_witness :
    (handlePost (mkEnv profUser2 svcOk) (some "Bearer tok1")
      (some "a1")).status = 403 ∧
    (handlePost (mkEnv profUser2 svcOk) (some "Bearer tok1")
      (some "a1")).created = [] ∧
    (handlePost (mkEnv profUser2 svcOk) (some "Bearer tok1")
      (some "a1")).genCalls = 0 :=
  cross_org_non_admin_forbidden (mkEnv profUser2 svcOk)
    (some "Bearer tok1") (some "a1") profUser2 aluno1
    (by decide) (by decide) (by decide) (by decide) (by decide)

/-- Claim C5. For every Generate request where the caller's access level
equals the administrator level (`'Administrador'` in the code,
"Administrator" in the spec), the authorization step succeeds regardless
of whether the caller's organization id matches the target's: the handler
proceeds to the generation stage (never the authorization 403, and at
least one generation call is made). -/
theorem admin_authorization_succeeds (env : Env)
    (authHeader alunoId : Option String) (user : TokenPayload)
    (aluno : Aluno)
    (hauth : authenticateToken env.verify authHeader = .ok user)
    (hid : missingParam alunoId = false)
    (hfind : env.findAluno (alunoId.getD "") = some aluno)
    (hadmin : user.acesso = "Administrador") :
    handlePost env authHeader alunoId = generateForAluno env aluno ∧
    (handlePost env authHeader alunoId).status ≠ 403 ∧
    1 ≤ (handlePost env authHeader alunoId).genCalls := by
  have heq := handlePost_authorized env authHeader alunoId user aluno hauth
    hid hfind (Or.inr hadmin)
  refine ⟨heq, ?_, ?_⟩ <;> rw [heq]
  · exact generateForAluno_status_ne_403 env aluno
  · rw [generateForAluno_genCalls]
    exact retryLoop_calls_pos env.svc 0 3 (by decide)

/-- Witness for C5: administrator of school `"e2"`, student of school
`"e1"`. -/
theorem admin_authorization_succeeds_witness :
    (handlePost (mkEnv adminUser svcOk) (some "Bearer tok1")
      (some "a1")).status ≠ 403 ∧
    1 ≤ (handlePost (mkEnv adminUser svcOk) (some "Bearer tok1")
      (some "a1")).genCalls := by
  have h := admin_authorization_succeeds (mkEnv adminUser svcOk)
    (some "Bearer tok1") (some "a1") adminUser aluno1
    (by decide) (by decide) (by decide) (by decide)
  exact ⟨h.2.1, h.2.2⟩

theorem generateForAluno_created_mem (env : Env) (aluno : Aluno)
    (ins : Insight) (hmem : ins ∈ (generateForAluno env aluno).created) :
    ∃ t, (retryGenerateInsight env.svc).result = .ok t ∧
      ins = ⟨aluno.id, buildJsonInput aluno, t, aluno.escolaId⟩ := by
  cases h : (retryGenerateInsight env.svc).result with
  | ok t =>
    cases hc : env.createOk with
    | true =>
      simp only [generateForAluno, h, hc, reduceIte,
        List.mem_singleton] at hmem
      exact ⟨t, rfl, hmem⟩
    | false => simp [generateForAluno, h, hc] at hmem
  | overloaded => simp [generateForAluno, h] at hmem
  | failedNonTransient st => simp [generateForAluno, h] at hmem

/-- Claim C6. Every InsightRecord created by the Generate operation has an
owning-organization id (`escolaId`) equal to its target record's
`escolaId` at creation time (and records the target's own id); no path of
the handler creates an InsightRecord violating this equality. -/
theorem insight_org_matches_target (env : Env)
    (authHeader alunoId : Option String) (ins : Insight)
    (hmem : ins ∈ (handlePost env authHeader alunoId).created) :
    ∃ aluno, env.findAluno (alunoId.getD "") = some aluno ∧
      ins.alunoId = aluno.id ∧ ins.escolaId = aluno.escolaId := by
  cases hres : authenticateToken env.verify authHeader with
  | missingToken => simp [handlePost, hres] at hmem
  | invalidToken => simp [handlePost, hres] at hmem
  | ok user =>
    by_cases hid : missingParam alunoId = true
    · simp [handlePost, hres, hid] at hmem
    · cases hfind : env.findAluno (alunoId.getD "") with
      | none => simp [handlePost, hres, hid, hfind] at hmem
      | some aluno =>
        by_cases hforb : user.escolaId ≠ some aluno.escolaId ∧
            user.acesso ≠ "Administrador"
        · simp [handlePost, hres, hid, hfind, hforb] at hmem
        · have hmem2 : ins ∈ (generateForAluno env aluno).created := by
            simpa [handlePost, hres, hid, hfind, hforb] using hmem
          obtain ⟨t, _, hins⟩ :=
            generateForAluno_created_mem env aluno ins hmem2
          exact ⟨aluno, rfl, by rw [hins], by rw [hins]⟩

/-- Witness for C6: a successful run creates exactly the record
`⟨aluno1.id, buildJsonInput aluno1, "texto", aluno1.escolaId⟩`. -/
theorem insight_org_matches_target_witness :
    (⟨"a1", buildJsonInput aluno1, "texto", "e1"⟩ : Insight) ∈
      (handlePost (mkEnv profUser svcOk) (some "Bearer tok1")
        (some "a1")).created ∧
    ∃ aluno, (mkEnv profUser svcOk).findAluno ((some "a1").getD "") =
        some aluno ∧
      (⟨"a1", buildJsonInput aluno1, "texto", "e1"⟩ : Insight).alunoId =
        aluno.id ∧
      (⟨"a1", buildJsonInput aluno1, "texto", "e1"⟩ : Insight).escolaId =
        aluno.escolaId := by
  have hmem : (⟨"a1", buildJsonInput aluno1, "texto", "e1"⟩ : Insight) ∈
      (handlePost (mkEnv profUser svcOk) (some "Bearer tok1")
        (some "a1")).created := by decide
  exact ⟨hmem, insight_org_matches_target (mkEnv profUser svcOk)
    (some "Bearer tok1") (some "a1") _ hmem⟩

/-- Claim C7. For every Generate request in which the generation stage fails
(whether with the exhausted-retries overload error or a rethrown
non-transient error), no InsightRecord — partial or otherwise — is created
in storage and none is returned; the persistence write happens only after
a successful generation. -/
theorem no_insight_on_generation_failure (env : Env)
    (authHeader alunoId : Option String)
    (hfail : ∀ t, (retryGenerateInsight env.svc).result ≠ .ok t) :
    (handlePost env authHeader alunoId).created = [] ∧
    (handlePost env authHeader alunoId).insight = none := by
  cases hres : authenticateToken env.verify authHeader with
  | missingToken => simp [handlePost, hres]
  | invalidToken => simp [handlePost, hres]
  | ok user =>
    by_cases hid : missingParam alunoId = true
    · simp [handlePost, hres, hid]
    · cases hfind : env.findAluno (alunoId.getD "") with
      | none => simp [handlePost, hres, hid, hfind]
      | some aluno =>
        by_cases hforb : user.escolaId ≠ some aluno.escolaId ∧
            user.acesso ≠ "Administrador"
        · simp [handlePost, hres, hid, hfind, hforb]
        · have heq : handlePost env authHeader alunoId =
              generateForAluno env aluno := by
            simp [handlePost, hres, hid, hfind, hforb]
          rw [heq]
          cases h : (retryGenerateInsight env.svc).result with
          | ok t => exact absurd h (hfail t)
          | overloaded => simp [generateForAluno, h]
          | failedNonTransient st => simp [generateForAluno, h]

/-- Witness for C7 with a service that always fails with status 500. -/
theorem no_insight_on_generation_failure_witness :
    (handlePost (mkEnv profUser svc500) (some "Bearer tok1")
      (some "a1")).created = [] ∧
    (handlePost (mkEnv profUser svc500) (some "Bearer tok1")
      (some "a1")).insight = none :=
  no_insight_on_generation_failure (mkEnv profUser svc500)
    (some "Bearer tok1") (some "a1")
    (fun t h => by
      simp [retryGenerateInsight, retryLoop, svc500, mkEnv] at h)

/-- Claim C8, counterexample. A request with no Authorization header is an
exit path (status 401) of both the List and the Generate handlers on
which `prisma.$disconnect()` does not run: the middleware responds before
the handler body, whose `try … finally` is never entered, so the release
is not unconditional on every exit path. -/
theorem release_skipped_before_try :
    (handleGet (mkEnv profUser svcOk) none (some "a1")).status = 401 ∧
    (handleGet (mkEnv profUser svcOk) none (some "a1")).disconnected
      = false ∧
    (handlePost (mkEnv profUser svcOk) none (some "a1")).status = 401 ∧
    (handlePost (mkEnv profUser svcOk) none (some "a1")).disconnected
      = false := by
  decide

/-- Claim C8, amended. On every exit path of the List and Generate
operations that reaches the handler's `try` block — i.e., once the
authentication middleware has succeeded and the target-id presence check
has passed — the storage connection is released (`prisma.$disconnect()`
runs in the `finally`), for success and every failure kind alike.  Exit
paths taken before the `try` block (missing token, invalid token, missing
target id) do not release. -/
theorem release_on_paths_reaching_try (env : Env)
    (authHeader alunoId : Option String) (user : TokenPayload)
    (hauth : authenticateToken env.verify authHeader = .ok user)
    (hid : missingParam alunoId = false) :
    (handleGet env authHeader alunoId).disconnected = true ∧
    (handlePost env authHeader alunoId).disconnected = true := by
  constructor
  · simp only [handleGet, hauth, hid, Bool.false_eq_true, if_false]
    split <;> rfl
  · simp only [handlePost, hauth, hid, Bool.false_eq_true, if_false]
    split
    · rfl
    · split
      · rfl
      · exact generateForAluno_disconnected env _

/-- Witness for the amended C8: a request that reaches both `try` blocks
releases in both handlers. -/
theorem release_on_paths_reaching_try_witness :
    (handleGet (mkEnv profUser svcOk) (some "Bearer tok1")
      (some "a1")).disconnected = true ∧
    (handlePost (mkEnv profUser svcOk) (some "Bearer tok1")
      (some "a1")).disconnected = true :=
  release_on_paths_reaching_try (mkEnv profUser svcOk)
    (some "Bearer tok1") (some "a1") profUser (by decide) (by decide)

/-- Claim C10. For every Generate request whose verified token payload
carries no `escolaId` field (so the caller's organization id is absent)
and whose access level is not `'Administrador'`, the operation returns
Forbidden (403) for every existing target, creating nothing and never
calling the generation service: an absent caller organization id never
equals the target's organization id. -/
theorem missing_org_claim_forbidden (env : Env)
    (authHeader alunoId : Option String) (user : TokenPayload)
    (aluno : Aluno)
    (hauth : authenticateToken env.verify authHeader = .ok user)
    (hnoorg : user.escolaId = none)
    (hacc : user.acesso ≠ "Administrador")
    (hid : missingParam alunoId = false)
    (hfind : env.findAluno (alunoId.getD "") = some aluno) :
    (handlePost env authHeader alunoId).status = 403 ∧
    (handlePost env authHeader alunoId).created = [] ∧
    (handlePost env authHeader alunoId).genCalls = 0 := by
  have horg : user.escolaId ≠ some aluno.escolaId := by
    rw [hnoorg]; simp
  rw [handlePost_forbidden env authHeader alunoId user aluno hauth hid
    hfind horg hacc]
  exact ⟨rfl, rfl, rfl⟩

/-- Witness for C10: a caller whose payload has no `escolaId`. -/
theorem missing_org_claim_forbidden_witness :
    (handlePost (mkEnv noOrgUser svcOk) (some "Bearer tok1")
      (some "a1")).status = 403 ∧
    (handlePost (mkEnv noOrgUser svcOk) (some "Bearer tok1")
      (some "a1")).created = [] ∧
    (handlePost (mkEnv noOrgUser svcOk) (some "Bearer tok1")
      (some "a1")).genCalls = 0 :=
  missing_org_claim_forbidden (mkEnv noOrgUser svcOk)
    (some "Bearer tok1") (some "a1") noOrgUser aluno1
    (by decide) (by decide) (by decide) (by decide) (by decide)

end Cognitiva
